import Mathlib

/-!
Verification development for the Zion Car Rentals repository.

The repository contains three near-duplicate Express backends:

* `server.js` — the Razorpay variant: per-hour pricing, an eight-state booking
  lifecycle (`pending … cancelled`), HMAC signature verification on the
  synchronous payment-verify endpoint, a global boolean availability flag per
  car.
* the Zion variant (first backend in `src/unnamed/part_001`): simple
  12h/24h tier pricing, a four-state booking lifecycle
  (`pending/confirmed/completed/cancelled`), interval-overlap availability
  checking (`hasTimeOverlap` / `checkAvailability`), and a payment-verify
  endpoint whose signature check is commented out.
* the PhonePe variant (second backend in `src/unnamed/part_001`): six-tier
  pricing (`calculatePriceByDuration`), driver and delivery add-ons, the same
  eight-state lifecycle as the Razorpay variant, and payment confirmation via
  a polled status endpoint plus a webhook.

Timestamps are modelled as integers (milliseconds, exactly the values of
JavaScript `Date.getTime()`), money amounts and durations as integers.
Request-handler side effects (MongoDB writes, notification inserts) are
modelled by pure state-passing over a store record; each handler is one Lean
function whose branch structure follows the source handler line by line.
Personal-information fields of a booking (name, references, license data,
document paths) are carried by no transition and affect no claim, so they are
projected away; every field that any modelled handler reads or writes is kept.
-/

set_option linter.unusedVariables false

/-- Integer form of the JavaScript expression Math.ceil (a / b) for a
positive divisor b. Lean integer division on Int rounds toward negative
infinity when the divisor is positive, so adding b - 1 to the numerator
yields the ceiling, for negative numerators as well. -/
def jsCeilDiv (a b : Int) : Int := (a + b - 1) / b

/-- Booking lifecycle status enumeration of the Razorpay and PhonePe
variants (the `status` enum of their booking schemas). -/
inductive BStatus where
  | pending
  | accepted
  | declined
  | payment_pending
  | paid
  | active
  | completed
  | cancelled
  deriving Repr, DecidableEq

/-- Payment sub-state enumeration (`paymentStatus` in the booking schemas). -/
inductive PayStatus where
  | pending
  | completed
  | failed
  | refunded
  deriving Repr, DecidableEq

/-- Deposit status enumeration (`depositStatus` in the booking schemas). -/
inductive DepStatus where
  | pending
  | received
  | refunded
  deriving Repr, DecidableEq

/-- Notification category enumeration (`type` of the notification schema). -/
inductive NotifType where
  | booking_update
  | payment
  | general
  deriving Repr, DecidableEq

/-- Notification record as inserted by `createNotification`. The message is
abstracted to a fixed tag per call site (the source formats a template string
whose exact text no claim depends on); recipient, related booking and
category are kept. -/
structure Notification where
  userId : Nat
  bookingId : Option Nat
  message : String
  ntype : NotifType
  deriving Repr, DecidableEq

/-- Late-return fee computation `calculateLateReturnFee` — identical, byte
for byte, in `server.js` and in the PhonePe variant. The JavaScript body is:
return 0 when the actual return is not after the scheduled end, otherwise
Math.ceil of the late milliseconds over one hour, times the hourly rate
(both call sites use the default rate of 100, which is passed explicitly
here). -/
def calculateLateReturnFee (scheduledEndTime actualReturnTime hourlyRate : Int) : Int :=
  if actualReturnTime ≤ scheduledEndTime then 0
  else
    let lateMs := actualReturnTime - scheduledEndTime
    let lateHours := jsCeilDiv lateMs 3600000
    lateHours * hourlyRate

namespace RZ

/-- Car record of the Razorpay variant (`server.js` car schema), keeping the
fields the modelled handlers read or write. -/
structure Car where
  id : Nat
  pricePerHour : Int
  available : Bool
  deriving Repr, DecidableEq

/-- Booking record of the Razorpay variant (`server.js` booking schema),
keeping every field some modelled handler reads or writes. -/
structure Booking where
  id : Nat
  customerId : Nat
  carId : Nat
  startTime : Int
  duration : Int
  endTime : Int
  depositStatus : DepStatus
  homeDelivery : Bool
  deliveryDistance : Int
  deliveryFee : Int
  vehicleName : Option String
  vehicleNumber : Option String
  startOdometer : Option Int
  endOdometer : Option Int
  basePrice : Int
  lateReturnFee : Int
  lateHours : Int
  totalPrice : Int
  status : BStatus
  adminNotes : Option String
  paymentStatus : PayStatus
  razorpayOrderId : Option String
  razorpayPaymentId : Option String
  razorpaySignature : Option String
  paymentDate : Option Int
  actualReturnTime : Option Int
  deriving Repr, DecidableEq

/-- Persistent state touched by the Razorpay-variant booking and payment
handlers: the booking collection, the car collection and the append-only
notification collection. -/
structure Store where
  bookings : List Booking
  cars : List Car
  notifications : List Notification
  deriving Repr, DecidableEq

/-- Error outcomes of the modelled Razorpay-variant handlers, one constructor
per early-return branch. Each is a fixed tag: the source returns a fixed
message string that names neither the attempted action nor the current
booking status. -/
inductive Err where
  | badDuration
  | carNotFound
  | carNotAvailable
  | missingDocuments
  | bookingNotFound
  | alreadyReviewed
  | invalidAction
  | paymentNotCompleted
  | notActive
  | invalidSignature
  deriving Repr, DecidableEq

/-- Mongoose `findById` on the booking collection. -/
def findBooking (l : List Booking) (bid : Nat) : Option Booking :=
  l.find? (fun b => b.id == bid)

/-- Mongoose `findById` on the car collection. -/
def findCar (l : List Car) (cid : Nat) : Option Car :=
  l.find? (fun c => c.id == cid)

/-- Effect of `booking.save()`: replace the booking with the matching id. -/
def saveBooking (l : List Booking) (b : Booking) : List Booking :=
  l.map (fun x => if x.id == b.id then b else x)

/-- Effect of `Car.findByIdAndUpdate(carId, .. available .. )`. -/
def setCarAvailable (l : List Car) (cid : Nat) (v : Bool) : List Car :=
  l.map (fun c => if c.id == cid then { c with available := v } else c)

/-- Price computation `calculatePrice` of `server.js`: hourly rate times
duration, plus a flat 500 delivery surcharge when home delivery is requested
within 5 distance units. -/
def calculatePrice (car : Car) (duration : Int) (homeDelivery : Bool)
    (deliveryDistance : Int) : Int :=
  let price := car.pricePerHour * duration
  if homeDelivery ∧ deliveryDistance ≤ 5 then price + 500 else price

/-- Request body of POST /api/bookings in `server.js`, projected to the
fields the handler logic branches on; `docsPresent` stands for the check
that all three uploaded document handles are present. -/
structure SubmitReq where
  carId : Nat
  startTime : Int
  duration : Int
  homeDelivery : Bool
  deliveryDistance : Int
  docsPresent : Bool
  customerId : Nat
  deriving Repr, DecidableEq

/-- Handler of POST /api/bookings in `server.js` (booking submission).
Branch order follows the source: duration multiple-of-12 check (JavaScript
`duration % 12 !== 0` — the truncated JavaScript remainder and the Euclidean
remainder used here have the same zero set), car lookup, car availability
flag, document presence; then the booking is created with
endTime = startTime + duration hours and basePrice from `calculatePrice`,
status pending, and a notification is emitted. Returns the updated store and
the handler outcome. -/
def submitEndpoint (s : Store) (req : SubmitReq) (newId : Nat) :
    Store × Except Err Booking :=
  if req.duration % 12 ≠ 0 then (s, .error .badDuration)
  else
    match findCar s.cars req.carId with
    | none => (s, .error .carNotFound)
    | some car =>
      if ¬ car.available then (s, .error .carNotAvailable)
      else if ¬ req.docsPresent then (s, .error .missingDocuments)
      else
        let start := req.startTime
        let endT := start + req.duration * 3600000
        let deliveryFee : Int :=
          if req.homeDelivery ∧ req.deliveryDistance ≤ 5 then 500 else 0
        let basePrice := calculatePrice car req.duration req.homeDelivery req.deliveryDistance
        let b : Booking :=
          { id := newId
            customerId := req.customerId
            carId := req.carId
            startTime := start
            duration := req.duration
            endTime := endT
            depositStatus := .pending
            homeDelivery := req.homeDelivery
            deliveryDistance := if req.homeDelivery then req.deliveryDistance else 0
            deliveryFee := deliveryFee
            vehicleName := none
            vehicleNumber := none
            startOdometer := none
            endOdometer := none
            basePrice := basePrice
            lateReturnFee := 0
            lateHours := 0
            totalPrice := basePrice
            status := .pending
            adminNotes := none
            paymentStatus := .pending
            razorpayOrderId := none
            razorpayPaymentId := none
            razorpaySignature := none
            paymentDate := none
            actualReturnTime := none }
        ({ s with
            bookings := s.bookings ++ [b]
            notifications := s.notifications ++
              [{ userId := req.customerId, bookingId := some newId,
                 message := "booking-submitted", ntype := .booking_update }] },
         .ok b)

/-- Admin review action of PUT /api/bookings/:id/review. -/
inductive ReviewAction where
  | accept
  | decline
  deriving Repr, DecidableEq

/-- Handler of PUT /api/bookings/:id/review in `server.js`. Guarded on
current status pending (error otherwise, nothing written); accept moves the
booking to payment_pending and stores the admin note; decline moves it to
declined, stores the note and sets the car availability flag to true. Both
branches emit one notification. No availability re-check of any kind is
performed. -/
def reviewEndpoint (s : Store) (bid : Nat) (act : ReviewAction)
    (adminNotes : String) : Store × Except Err Booking :=
  match findBooking s.bookings bid with
  | none => (s, .error .bookingNotFound)
  | some booking =>
    if booking.status ≠ .pending then (s, .error .alreadyReviewed)
    else
      match act with
      | .accept =>
        let b := { booking with status := .payment_pending, adminNotes := some adminNotes }
        ({ s with
            bookings := saveBooking s.bookings b
            notifications := s.notifications ++
              [{ userId := b.customerId, bookingId := some b.id,
                 message := "booking-accepted", ntype := .booking_update }] },
         .ok b)
      | .decline =>
        let b := { booking with status := .declined, adminNotes := some adminNotes }
        ({ s with
            bookings := saveBooking s.bookings b
            cars := setCarAvailable s.cars booking.carId true
            notifications := s.notifications ++
              [{ userId := b.customerId, bookingId := some b.id,
                 message := "booking-declined", ntype := .booking_update }] },
         .ok b)

/-- Handler of PUT /api/bookings/:id/start in `server.js`. Guarded on
current status paid (error otherwise, nothing written); records the vehicle
handover snapshot, sets status active and deposit received, emits one
notification. -/
def startEndpoint (s : Store) (bid : Nat) (vehicleName vehicleNumber : String)
    (startOdometer : Int) : Store × Except Err Booking :=
  match findBooking s.bookings bid with
  | none => (s, .error .bookingNotFound)
  | some booking =>
    if booking.status ≠ .paid then (s, .error .paymentNotCompleted)
    else
      let b := { booking with
        status := .active
        vehicleName := some vehicleName
        vehicleNumber := some vehicleNumber
        startOdometer := some startOdometer
        depositStatus := .received }
      ({ s with
          bookings := saveBooking s.bookings b
          notifications := s.notifications ++
            [{ userId := b.customerId, bookingId := some b.id,
               message := "rental-started", ntype := .booking_update }] },
       .ok b)

/-- Handler of PUT /api/bookings/:id/complete in `server.js`. Guarded on
current status active (error otherwise, nothing written); computes the late
fee with `calculateLateReturnFee` at the default hourly rate 100, the late
hours by the same ceiling when the fee is positive, sets
totalPrice := basePrice + lateFee (the driver and delivery fields of the
PhonePe variant do not exist here and the stored deliveryFee is not added),
sets deposit refunded, releases the car flag and emits one notification. -/
def completeEndpoint (s : Store) (bid : Nat) (endOdometer : Int)
    (returnTime : Int) : Store × Except Err Booking :=
  match findBooking s.bookings bid with
  | none => (s, .error .bookingNotFound)
  | some booking =>
    if booking.status ≠ .active then (s, .error .notActive)
    else
      let lateFee := calculateLateReturnFee booking.endTime returnTime 100
      let lateHours : Int :=
        if lateFee > 0 then jsCeilDiv (returnTime - booking.endTime) 3600000 else 0
      let b := { booking with
        status := .completed
        endOdometer := some endOdometer
        actualReturnTime := some returnTime
        lateReturnFee := lateFee
        lateHours := lateHours
        totalPrice := booking.basePrice + lateFee
        depositStatus := .refunded }
      ({ s with
          bookings := saveBooking s.bookings b
          cars := setCarAvailable s.cars booking.carId true
          notifications := s.notifications ++
            [{ userId := b.customerId, bookingId := some b.id,
               message := "rental-completed", ntype := .booking_update }] },
       .ok b)

/-- Handler of POST /api/payment/verify in `server.js`. The HMAC signature
comparison against the shared secret is an external capability, abstracted
by the `signatureValid` argument (the source compares a freshly computed
HMAC digest with the supplied signature). When the signature does not match
the handler returns before any database access; when it matches, the booking
is loaded and — with no check of its current status whatsoever — set to
status paid and paymentStatus completed, the gateway correlation ids and the
payment date are stored, the car flag is set to false and a payment
notification is emitted. -/
def verifyEndpoint (s : Store) (signatureValid : Bool)
    (orderId paymentId signature : String) (bid : Nat) (now : Int) :
    Store × Except Err Booking :=
  if ¬ signatureValid then (s, .error .invalidSignature)
  else
    match findBooking s.bookings bid with
    | none => (s, .error .bookingNotFound)
    | some booking =>
      let b := { booking with
        status := .paid
        paymentStatus := .completed
        razorpayPaymentId := some paymentId
        razorpayOrderId := some orderId
        razorpaySignature := some signature
        paymentDate := some now }
      ({ s with
          bookings := saveBooking s.bookings b
          cars := setCarAvailable s.cars booking.carId false
          notifications := s.notifications ++
            [{ userId := b.customerId, bookingId := some b.id,
               message := "payment-success", ntype := .payment }] },
       .ok b)

end RZ

namespace PP

/-- Tiered tariff table of the PhonePe-variant car schema (`pricing`
subdocument with six fixed duration tiers). -/
structure Pricing where
  price12hr : Int
  price24hr : Int
  price36hr : Int
  price48hr : Int
  price60hr : Int
  price72hr : Int
  deriving Repr, DecidableEq

/-- Car record of the PhonePe variant, keeping the fields the modelled
handlers read or write. -/
structure Car where
  id : Nat
  pricing : Pricing
  securityDeposit : Int
  driverAvailable : Bool
  driverChargesPerDay : Int
  available : Bool
  deriving Repr, DecidableEq

/-- Booking record of the PhonePe variant, keeping every field some
modelled handler reads or writes. -/
structure Booking where
  id : Nat
  customerId : Nat
  carId : Nat
  startTime : Int
  duration : Int
  endTime : Int
  depositStatus : DepStatus
  withDriver : Bool
  driverCharges : Int
  homeDelivery : Bool
  deliveryDistance : Int
  deliveryFee : Int
  vehicleName : Option String
  vehicleNumber : Option String
  startOdometer : Option Int
  endOdometer : Option Int
  basePrice : Int
  lateReturnFee : Int
  lateHours : Int
  totalPrice : Int
  status : BStatus
  adminNotes : Option String
  paymentStatus : PayStatus
  merchantOrderId : Option String
  phonePeOrderId : Option String
  phonePeTransactionId : Option String
  paymentDate : Option Int
  actualReturnTime : Option Int
  deriving Repr, DecidableEq

/-- Persistent state touched by the PhonePe-variant handlers. -/
structure Store where
  bookings : List Booking
  cars : List Car
  notifications : List Notification
  deriving Repr, DecidableEq

/-- Error outcomes of the modelled PhonePe-variant handlers. -/
inductive Err where
  | badDuration
  | carNotFound
  | carNotAvailable
  | driverUnavailable
  | missingDocuments
  | bookingNotFound
  | alreadyReviewed
  | notActive
  deriving Repr, DecidableEq

/-- Mongoose `findById` on the PhonePe booking collection. -/
def findBooking (l : List Booking) (bid : Nat) : Option Booking :=
  l.find? (fun b => b.id == bid)

/-- Mongoose `findOne` by the stored merchant order id, as used by the
payment status endpoint and the webhook. -/
def findByMerchantOrder (l : List Booking) (mo : String) : Option Booking :=
  l.find? (fun b => b.merchantOrderId == some mo)

/-- Mongoose `findById` on the PhonePe car collection. -/
def findCar (l : List Car) (cid : Nat) : Option Car :=
  l.find? (fun c => c.id == cid)

/-- Effect of `booking.save()` in the PhonePe variant. -/
def saveBooking (l : List Booking) (b : Booking) : List Booking :=
  l.map (fun x => if x.id == b.id then b else x)

/-- Effect of `Car.findByIdAndUpdate(carId, .. available .. )`. -/
def setCarAvailable (l : List Car) (cid : Nat) (v : Bool) : List Car :=
  l.map (fun c => if c.id == cid then { c with available := v } else c)

/-- Pricing helper `calculatePriceByDuration` of the PhonePe variant: an
exact tier match (12/24/36/48/60/72) returns that tier price; any other
duration falls back to the 24-hour tier price times Math.ceil of the
duration over 24. The driver charge is the per-day rate times the same
ceiling when a driver is requested and the car supports one, else 0.
Returns the pair (basePrice, driverCharges) like the source. -/
def calculatePriceByDuration (car : Car) (duration : Int) (withDriver : Bool) :
    Int × Int :=
  let basePrice :=
    if duration = 12 then car.pricing.price12hr
    else if duration = 24 then car.pricing.price24hr
    else if duration = 36 then car.pricing.price36hr
    else if duration = 48 then car.pricing.price48hr
    else if duration = 60 then car.pricing.price60hr
    else if duration = 72 then car.pricing.price72hr
    else car.pricing.price24hr * jsCeilDiv duration 24
  let driverCharges :=
    if withDriver ∧ car.driverAvailable then
      car.driverChargesPerDay * jsCeilDiv duration 24
    else 0
  (basePrice, driverCharges)

/-- Total price helper `calculateTotalPrice` of the PhonePe variant: base
price plus driver charges from `calculatePriceByDuration`, plus the flat 500
delivery surcharge when home delivery is requested within 5 distance
units. -/
def calculateTotalPrice (car : Car) (duration : Int) (withDriver : Bool)
    (homeDelivery : Bool) (deliveryDistance : Int) : Int :=
  let p := calculatePriceByDuration car duration withDriver
  let deliveryFee : Int := if homeDelivery ∧ deliveryDistance ≤ 5 then 500 else 0
  p.1 + p.2 + deliveryFee

/-- Request body of POST /api/bookings in the PhonePe variant, projected to
the fields the handler logic branches on. -/
structure SubmitReq where
  carId : Nat
  startTime : Int
  duration : Int
  withDriver : Bool
  homeDelivery : Bool
  deliveryDistance : Int
  docsPresent : Bool
  customerId : Nat
  deriving Repr, DecidableEq

/-- Handler of POST /api/bookings in the PhonePe variant. Branch order
follows the source: duration multiple-of-12 check, car lookup, the car
availability flag, the driver-support validation (a request with a driver on
a car whose driverAvailable flag is false is rejected), document presence;
then the booking is created with prices from `calculatePriceByDuration` and
`calculateTotalPrice` and a notification is emitted. -/
def submitEndpoint (s : Store) (req : SubmitReq) (newId : Nat) :
    Store × Except Err Booking :=
  if req.duration % 12 ≠ 0 then (s, .error .badDuration)
  else
    match findCar s.cars req.carId with
    | none => (s, .error .carNotFound)
    | some car =>
      if ¬ car.available then (s, .error .carNotAvailable)
      else if req.withDriver ∧ ¬ car.driverAvailable then (s, .error .driverUnavailable)
      else if ¬ req.docsPresent then (s, .error .missingDocuments)
      else
        let start := req.startTime
        let endT := start + req.duration * 3600000
        let deliveryFee : Int :=
          if req.homeDelivery ∧ req.deliveryDistance ≤ 5 then 500 else 0
        let totalPrice := calculateTotalPrice car req.duration req.withDriver
          req.homeDelivery req.deliveryDistance
        let p := calculatePriceByDuration car req.duration req.withDriver
        let b : Booking :=
          { id := newId
            customerId := req.customerId
            carId := req.carId
            startTime := start
            duration := req.duration
            endTime := endT
            depositStatus := .pending
            withDriver := req.withDriver
            driverCharges := p.2
            homeDelivery := req.homeDelivery
            deliveryDistance := if req.homeDelivery then req.deliveryDistance else 0
            deliveryFee := deliveryFee
            vehicleName := none
            vehicleNumber := none
            startOdometer := none
            endOdometer := none
            basePrice := p.1
            lateReturnFee := 0
            lateHours := 0
            totalPrice := totalPrice
            status := .pending
            adminNotes := none
            paymentStatus := .pending
            merchantOrderId := none
            phonePeOrderId := none
            phonePeTransactionId := none
            paymentDate := none
            actualReturnTime := none }
        ({ s with
            bookings := s.bookings ++ [b]
            notifications := s.notifications ++
              [{ userId := req.customerId, bookingId := some newId,
                 message := "booking-submitted", ntype := .booking_update }] },
         .ok b)

/-- Handler of PUT /api/bookings/:id/complete in the PhonePe variant.
Guarded on current status active; computes the late fee and late hours as in
the Razorpay variant, then sets
totalPrice := basePrice + driverCharges + deliveryFee + lateFee (a plain
assignment, replacing whatever total was stored), sets deposit refunded,
releases the car flag and emits one notification. -/
def completeEndpoint (s : Store) (bid : Nat) (endOdometer : Int)
    (returnTime : Int) : Store × Except Err Booking :=
  match findBooking s.bookings bid with
  | none => (s, .error .bookingNotFound)
  | some booking =>
    if booking.status ≠ .active then (s, .error .notActive)
    else
      let lateFee := calculateLateReturnFee booking.endTime returnTime 100
      let lateHours : Int :=
        if lateFee > 0 then jsCeilDiv (returnTime - booking.endTime) 3600000 else 0
      let b := { booking with
        status := .completed
        endOdometer := some endOdometer
        actualReturnTime := some returnTime
        lateReturnFee := lateFee
        lateHours := lateHours
        totalPrice := booking.basePrice + booking.driverCharges + booking.deliveryFee + lateFee
        depositStatus := .refunded }
      ({ s with
          bookings := saveBooking s.bookings b
          cars := setCarAvailable s.cars booking.carId true
          notifications := s.notifications ++
            [{ userId := b.customerId, bookingId := some b.id,
               message := "rental-completed", ntype := .booking_update }] },
       .ok b)

/-- Gateway order state reported by the PhonePe client for a polled status
request or carried by a webhook payload. -/
inductive GwState where
  | completedState
  | failedState
  | otherState
  deriving Repr, DecidableEq

/-- Handler of GET /api/payment/status/:merchantOrderId in the PhonePe
variant. Looks the booking up by merchant order id, then applies the
gateway-reported state: only when the gateway says COMPLETED **and** the
booking is still payment_pending does it move the booking to paid, store the
gateway correlation ids, set the car flag to false and emit a payment
notification; a COMPLETED report on a booking in any other status (such as
an already paid one) writes nothing and emits nothing. A FAILED report marks
the payment status failed without touching the booking status. -/
def paymentStatusEndpoint (s : Store) (mo : String) (gwState : GwState)
    (gwOrderId : String) (txnId : Option String) (now : Int) :
    Store × Except Err GwState :=
  match findByMerchantOrder s.bookings mo with
  | none => (s, .error .bookingNotFound)
  | some booking =>
    if gwState = .completedState ∧ booking.status = .payment_pending then
      let b := { booking with
        status := .paid
        paymentStatus := .completed
        phonePeOrderId := some gwOrderId
        phonePeTransactionId :=
          match txnId with
          | some t => some t
          | none => booking.phonePeTransactionId
        paymentDate := some now }
      ({ s with
          bookings := saveBooking s.bookings b
          cars := setCarAvailable s.cars booking.carId false
          notifications := s.notifications ++
            [{ userId := b.customerId, bookingId := some b.id,
               message := "payment-success", ntype := .payment }] },
       .ok gwState)
    else if gwState = .failedState then
      let b := { booking with paymentStatus := .failed }
      ({ s with bookings := saveBooking s.bookings b }, .ok gwState)
    else (s, .ok gwState)

/-- Webhook branch CHECKOUT_ORDER_COMPLETED of POST /api/payment/webhook in
the PhonePe variant (payload already validated by the PhonePe SDK callback
validator). Looks the booking up by the original merchant order id and —
with no check of its current status — sets it to paid, stores the
correlation ids, sets the car flag to false and emits a payment
notification; on every delivery of the event, including a repeat. -/
def webhookCompletedEndpoint (s : Store) (mo : String) (gwOrderId : String)
    (txnId : Option String) (now : Int) : Store :=
  match findByMerchantOrder s.bookings mo with
  | none => s
  | some booking =>
    let b := { booking with
      status := .paid
      paymentStatus := .completed
      phonePeOrderId := some gwOrderId
      phonePeTransactionId :=
        match txnId with
        | some t => some t
        | none => booking.phonePeTransactionId
      paymentDate := some now }
    { s with
        bookings := saveBooking s.bookings b
        cars := setCarAvailable s.cars booking.carId false
        notifications := s.notifications ++
          [{ userId := b.customerId, bookingId := some b.id,
             message := "payment-success", ntype := .payment }] }

end PP

namespace Zion

/-- Booking status enumeration of the Zion variant (four states only). -/
inductive Status where
  | pending
  | confirmed
  | completed
  | cancelled
  deriving Repr, DecidableEq

/-- Booking record of the Zion variant. The source stores the window as a
date plus an HH:MM string and combines them with `createDateTime` wherever
it compares windows; the combined millisecond instants are modelled directly
as `startDT` and `endDT`. -/
structure Booking where
  id : Nat
  userId : Nat
  carId : Nat
  startDT : Int
  endDT : Int
  duration : Int
  totalAmount : Int
  status : Status
  paymentId : Option String
  razorpayOrderId : Option String
  paymentMethod : Option String
  deriving Repr, DecidableEq

/-- Interval overlap test `hasTimeOverlap` of the Zion variant: two windows
overlap exactly when each starts strictly before the other ends, which makes
both windows half-open. -/
def hasTimeOverlap (start1 end1 start2 end2 : Int) : Bool :=
  decide (start1 < end2) && decide (end1 > start2)

/-- Availability check `checkAvailability` of the Zion variant: query all
bookings for the car whose status is pending or confirmed (optionally
excluding one booking id), and report unavailable exactly when one of them
overlaps the candidate window under `hasTimeOverlap`. -/
def checkAvailability (bookings : List Booking) (carId : Nat)
    (startDateTime endDateTime : Int) (excludeBookingId : Option Nat) : Bool :=
  let existing := bookings.filter (fun b =>
    b.carId == carId &&
    (b.status == .pending || b.status == .confirmed) &&
    (match excludeBookingId with
     | some i => b.id != i
     | none => true))
  !(existing.any (fun b => hasTimeOverlap startDateTime endDateTime b.startDT b.endDT))

/-- Handler of POST /api/payment/verify in the Zion variant. The Razorpay
signature check is present in the source only as a commented-out block, so
the external verification capability — modelled by the `verifierAccepts`
argument — is never consulted: the handler unconditionally updates every
listed booking belonging to the calling user to status confirmed and stores
the payment correlation ids (`Booking.updateMany`). No error path exists
apart from the express-validator shape checks. -/
def verifyPaymentEndpoint (bookings : List Booking) (verifierAccepts : Bool)
    (userId : Nat) (bookingIds : List Nat) (rzOrderId rzPaymentId : String) :
    List Booking :=
  bookings.map (fun b =>
    if bookingIds.contains b.id && b.userId == userId then
      { b with
        status := .confirmed
        paymentId := some rzPaymentId
        razorpayOrderId := some rzOrderId
        paymentMethod := some "Razorpay" }
    else b)

/-- Handler of PUT /api/admin/bookings/:id/status in the Zion variant:
`findByIdAndUpdate` straight to the requested status. The requested status
is shape-checked by express-validator but the current status of the booking
is never consulted: any of the four statuses can be written over any
other. -/
def adminUpdateStatusEndpoint (bookings : List Booking) (bid : Nat)
    (newStatus : Status) : List Booking × Option Booking :=
  match bookings.find? (fun b => b.id == bid) with
  | none => (bookings, none)
  | some b =>
    let b2 := { b with status := newStatus }
    (bookings.map (fun x => if x.id == bid then b2 else x), some b2)

end Zion

/-- Claim C5: the late-return fee is 0 whenever the actual return is not
after the scheduled end, and otherwise equals the ceiling of the delay in
hours times the hourly rate — the late-hour count h is pinned as the exact
ceiling by delta ≤ h·3600000 and (h−1)·3600000 < delta; at the boundary, a
delay of exactly 2 hours at rate 100 yields lateHours 2 and fee 200 (not 3
and 300), while a delay of 2 hours 10 minutes yields lateHours 3 and
fee 300. -/
theorem claim5_lateReturnFee (s a rate : Int) :
    (a ≤ s → calculateLateReturnFee s a rate = 0) ∧
    (s < a →
      calculateLateReturnFee s a rate = jsCeilDiv (a - s) 3600000 * rate ∧
      a - s ≤ jsCeilDiv (a - s) 3600000 * 3600000 ∧
      (jsCeilDiv (a - s) 3600000 - 1) * 3600000 < a - s) ∧
    calculateLateReturnFee 0 7200000 100 = 200 ∧
    jsCeilDiv 7200000 3600000 = 2 ∧
    calculateLateReturnFee 0 7800000 100 = 300 ∧
    jsCeilDiv 7800000 3600000 = 3 := by
  refine ⟨?_, ?_, by decide, by decide, by decide, by decide⟩
  · intro h
    simp [calculateLateReturnFee, h]
  · intro h
    have hif : ¬ (a ≤ s) := by omega
    refine ⟨by simp [calculateLateReturnFee, hif], ?_, ?_⟩ <;>
      · unfold jsCeilDiv
        omega

/-- Claim C5 witness: the theorem instantiated at an on-time return and at a
2-hour-10-minute late return. -/
theorem claim5_lateReturnFee_witness :
    calculateLateReturnFee 100 50 100 = 0 ∧
    calculateLateReturnFee 0 7800000 100 = jsCeilDiv 7800000 3600000 * 100 :=
  ⟨(claim5_lateReturnFee 100 50 100).1 (by decide),
   ((claim5_lateReturnFee 0 7800000 100).2.1 (by decide)).1⟩

/-- Claim C7: for a duration matching no exact tier, the base price is the
24-hour tier price times the ceiling of duration over 24 (the ceiling pinned
by the two inequality conjuncts); every exact tier returns its own tier
price directly; and duration 30 yields exactly twice the 24-hour price. -/
theorem claim7_tierPricing (car : PP.Car) (d : Int) (w : Bool) :
    (d ≠ 12 → d ≠ 24 → d ≠ 36 → d ≠ 48 → d ≠ 60 → d ≠ 72 →
      (PP.calculatePriceByDuration car d w).1 = car.pricing.price24hr * jsCeilDiv d 24 ∧
      d ≤ 24 * jsCeilDiv d 24 ∧ 24 * (jsCeilDiv d 24 - 1) < d) ∧
    (PP.calculatePriceByDuration car 12 w).1 = car.pricing.price12hr ∧
    (PP.calculatePriceByDuration car 24 w).1 = car.pricing.price24hr ∧
    (PP.calculatePriceByDuration car 36 w).1 = car.pricing.price36hr ∧
    (PP.calculatePriceByDuration car 48 w).1 = car.pricing.price48hr ∧
    (PP.calculatePriceByDuration car 60 w).1 = car.pricing.price60hr ∧
    (PP.calculatePriceByDuration car 72 w).1 = car.pricing.price72hr ∧
    (PP.calculatePriceByDuration car 30 w).1 = 2 * car.pricing.price24hr := by
  refine ⟨?_, ?_, ?_, ?_, ?_, ?_, ?_, ?_⟩
  · intro h12 h24 h36 h48 h60 h72
    refine ⟨by simp [PP.calculatePriceByDuration, h12, h24, h36, h48, h60, h72], ?_, ?_⟩ <;>
      · unfold jsCeilDiv
        omega
  all_goals simp [PP.calculatePriceByDuration]
  · have : jsCeilDiv 30 24 = 2 := by decide
    rw [this]
    ring

/-- Claim C7 sample car used by the witness. -/
def c7Car : PP.Car :=
  { id := 1
    pricing := { price12hr := 900, price24hr := 1500, price36hr := 2000,
                 price48hr := 2600, price60hr := 3100, price72hr := 3500 }
    securityDeposit := 25000
    driverAvailable := true
    driverChargesPerDay := 700
    available := true }

/-- Claim C7 witness: the fallback branch instantiated at duration 30. -/
theorem claim7_tierPricing_witness :
    (PP.calculatePriceByDuration c7Car 30 false).1 =
      c7Car.pricing.price24hr * jsCeilDiv 30 24 :=
  (((claim7_tierPricing c7Car 30 false).1 (by decide) (by decide) (by decide)
    (by decide) (by decide) (by decide)).1)

/-- Claim C8: the Zion availability check reports unavailable exactly when
some booking of the same car in status pending or confirmed overlaps the
candidate window under the half-open rule startA < endB and endA > startB —
so completed and cancelled bookings never block — and a candidate window
that starts exactly at the end instant of an existing confirmed booking does
not conflict. -/
theorem claim8_checkAvailability (bookings : List Zion.Booking) (carId : Nat)
    (s e : Int) :
    (Zion.checkAvailability bookings carId s e none = false ↔
      ∃ b ∈ bookings, b.carId = carId ∧
        (b.status = Zion.Status.pending ∨ b.status = Zion.Status.confirmed) ∧
        s < b.endDT ∧ e > b.startDT) ∧
    Zion.checkAvailability
      [{ id := 1, userId := 2, carId := 5, startDT := 0, endDT := 43200000,
         duration := 12, totalAmount := 1000, status := Zion.Status.confirmed,
         paymentId := none, razorpayOrderId := none, paymentMethod := none }]
      5 43200000 86400000 none = true := by
  constructor
  · simp only [Zion.checkAvailability, Zion.hasTimeOverlap, Bool.not_eq_false',
      List.any_eq_true, List.mem_filter, Bool.and_eq_true, beq_iff_eq,
      Bool.or_eq_true, decide_eq_true_eq, gt_iff_lt]
    aesop
  · decide

/-- Claim C9: a submission that requests a driver on a car whose
driver-availability flag is false always fails with a validation error and
writes nothing (it is never accepted with a silent zero charge, whatever the
other request fields are); when the flag is true and a driver is requested,
the created booking carries a driver charge of the per-day rate times the
ceiling of duration over 24; and when no driver is requested the charge
is 0. -/
theorem claim9_driverPolicy (s : PP.Store) (req : PP.SubmitReq) (nid : Nat)
    (car : PP.Car) :
    (PP.findCar s.cars req.carId = some car →
      req.withDriver = true → car.driverAvailable = false →
      ∃ err, PP.submitEndpoint s req nid = (s, .error err)) ∧
    (∀ b, PP.findCar s.cars req.carId = some car →
      (PP.submitEndpoint s req nid).2 = .ok b →
      (req.withDriver = true → car.driverAvailable = true →
        b.driverCharges = car.driverChargesPerDay * jsCeilDiv req.duration 24) ∧
      (req.withDriver = false → b.driverCharges = 0)) := by
  constructor
  · intro hfind hw hda
    unfold PP.submitEndpoint
    rw [hfind]
    by_cases hdur : req.duration % 12 ≠ 0
    · exact ⟨.badDuration, by simp [hdur]⟩
    · by_cases hav : car.available
      · refine ⟨.driverUnavailable, ?_⟩
        simp [hdur, hav, hw, hda]
      · exact ⟨.carNotAvailable, by simp [hdur, hav]⟩
  · intro b hfind hok
    unfold PP.submitEndpoint at hok
    rw [hfind] at hok
    by_cases h1 : req.duration % 12 ≠ 0
    · rw [if_pos h1] at hok
      exact absurd hok (by simp)
    rw [if_neg h1] at hok
    dsimp only at hok
    by_cases h2 : ¬ car.available = true
    · rw [if_pos h2] at hok
      exact absurd hok (by simp)
    rw [if_neg h2] at hok
    by_cases h3 : req.withDriver = true ∧ ¬ car.driverAvailable = true
    · rw [if_pos h3] at hok
      exact absurd hok (by simp)
    rw [if_neg h3] at hok
    by_cases h4 : ¬ req.docsPresent = true
    · rw [if_pos h4] at hok
      exact absurd hok (by simp)
    rw [if_neg h4] at hok
    simp only [Except.ok.injEq] at hok
    subst hok
    constructor
    · intro hw hda
      simp [PP.calculatePriceByDuration, hw, hda]
    · intro hw
      simp [PP.calculatePriceByDuration, hw]

/-- Claim C9 sample data: a car without driver support and a request asking
for a driver. -/
def c9Car : PP.Car :=
  { id := 1
    pricing := { price12hr := 900, price24hr := 1500, price36hr := 2000,
                 price48hr := 2600, price60hr := 3100, price72hr := 3500 }
    securityDeposit := 25000
    driverAvailable := false
    driverChargesPerDay := 0
    available := true }

/-- Claim C9 sample store around `c9Car`. -/
def c9Store : PP.Store := { bookings := [], cars := [c9Car], notifications := [] }

/-- Claim C9 sample request asking for a driver on `c9Car`. -/
def c9Req : PP.SubmitReq :=
  { carId := 1, startTime := 0, duration := 24, withDriver := true,
    homeDelivery := false, deliveryDistance := 0, docsPresent := true,
    customerId := 4 }

/-- Claim C9 sample car with driver support. -/
def c9CarOk : PP.Car :=
  { id := 1
    pricing := { price12hr := 900, price24hr := 1500, price36hr := 2000,
                 price48hr := 2600, price60hr := 3100, price72hr := 3500 }
    securityDeposit := 25000
    driverAvailable := true
    driverChargesPerDay := 700
    available := true }

/-- Claim C9 sample store around `c9CarOk`. -/
def c9StoreOk : PP.Store := { bookings := [], cars := [c9CarOk], notifications := [] }

/-- Claim C9 sample request asking for a driver on `c9CarOk`, duration 36. -/
def c9ReqOk : PP.SubmitReq :=
  { carId := 1, startTime := 0, duration := 36, withDriver := true,
    homeDelivery := false, deliveryDistance := 0, docsPresent := true,
    customerId := 4 }

/-- Claim C9 expected booking created from `c9ReqOk` on `c9StoreOk`. -/
def c9Expected : PP.Booking :=
  { id := 1, customerId := 4, carId := 1, startTime := 0, duration := 36,
    endTime := 129600000, depositStatus := .pending, withDriver := true,
    driverCharges := 1400, homeDelivery := false, deliveryDistance := 0,
    deliveryFee := 0, vehicleName := none, vehicleNumber := none,
    startOdometer := none, endOdometer := none, basePrice := 2000,
    lateReturnFee := 0, lateHours := 0, totalPrice := 3400, status := .pending,
    adminNotes := none, paymentStatus := .pending, merchantOrderId := none,
    phonePeOrderId := none, phonePeTransactionId := none, paymentDate := none,
    actualReturnTime := none }

/-- Claim C9 witness: the rejection branch at a concrete driverless car, and
the driver charge of a concrete successful submission. -/
theorem claim9_driverPolicy_witness :
    (∃ err, PP.submitEndpoint c9Store c9Req 1 = (c9Store, .error err)) ∧
    (PP.submitEndpoint c9StoreOk c9ReqOk 1).2 = .ok c9Expected ∧
    c9Expected.driverCharges = c9CarOk.driverChargesPerDay * jsCeilDiv 36 24 := by
  refine ⟨(claim9_driverPolicy c9Store c9Req 1 c9Car).1 (by decide) (by decide) (by decide),
    by rfl,
    ((claim9_driverPolicy c9StoreOk c9ReqOk 1 c9CarOk).2 c9Expected (by decide)
      (by rfl)).1 (by decide) (by decide)⟩

/-- Claim C10: the duration check of the submit handler rejects with the
bad-duration error exactly when the requested duration is not a multiple of
12 (zero and negative multiples of 12 pass); and whenever the car exists, is
flagged available and the documents are present, any such duration produces
a created pending booking whose end time is startTime + duration hours —
hence a nonpositive duration yields a booking whose end time does not exceed
its start time. -/
theorem claim10_durationValidation (s : RZ.Store) (req : RZ.SubmitReq) (nid : Nat) :
    ((RZ.submitEndpoint s req nid).2 = .error .badDuration ↔ req.duration % 12 ≠ 0) ∧
    (∀ car, RZ.findCar s.cars req.carId = some car → car.available = true →
      req.docsPresent = true → req.duration % 12 = 0 →
      ∃ b, (RZ.submitEndpoint s req nid).2 = .ok b ∧
        b.startTime = req.startTime ∧
        b.endTime = req.startTime + req.duration * 3600000 ∧
        b.status = .pending ∧
        (req.duration ≤ 0 → b.endTime ≤ b.startTime)) := by
  constructor
  · by_cases hdur : req.duration % 12 ≠ 0
    · unfold RZ.submitEndpoint
      rw [if_pos hdur]
      simpa using hdur
    · unfold RZ.submitEndpoint
      rw [if_neg hdur]
      rcases hfind : RZ.findCar s.cars req.carId with _ | car
      · simp [hdur]
      · dsimp only
        split_ifs <;> simp [hdur]
  · intro car hfind hav hdocs hdvd
    unfold RZ.submitEndpoint
    rw [if_neg (by omega : ¬ req.duration % 12 ≠ 0), hfind]
    dsimp only
    rw [if_neg (by simp [hav]), if_neg (by simp [hdocs])]
    refine ⟨_, rfl, rfl, rfl, rfl, fun hle => ?_⟩
    show req.startTime + req.duration * 3600000 ≤ req.startTime
    omega

/-- Claim C10 sample car for the witness. -/
def c10Car : RZ.Car := { id := 1, pricePerHour := 100, available := true }

/-- Claim C10 sample store for the witness. -/
def c10Store : RZ.Store := { bookings := [], cars := [c10Car], notifications := [] }

/-- Claim C10 sample request with duration minus 12 hours. -/
def c10Req : RZ.SubmitReq :=
  { carId := 1, startTime := 1000000000, duration := -12, homeDelivery := false,
    deliveryDistance := 0, docsPresent := true, customerId := 3 }

/-- Claim C10 witness: a booking with duration minus 12 is accepted and its
end time lies before its start time. -/
theorem claim10_durationValidation_witness :
    ∃ b, (RZ.submitEndpoint c10Store c10Req 1).2 = .ok b ∧ b.endTime ≤ b.startTime := by
  obtain ⟨b, hok, hst, hend, hstat, himp⟩ :=
    (claim10_durationValidation c10Store c10Req 1).2 c10Car (by decide) (by decide)
      (by decide) (by decide)
  exact ⟨b, hok, himp (by decide)⟩

/-- Claim C2 sample booking: a pending Zion booking whose payment is about
to be verified. -/
def c2Booking : Zion.Booking :=
  { id := 1, userId := 7, carId := 1, startDT := 0, endDT := 43200000,
    duration := 12, totalAmount := 1000, status := .pending,
    paymentId := none, razorpayOrderId := none, paymentMethod := none }

/-- Claim C2 counterexample: in the Zion variant the verification capability
rejects the payload (first argument false), yet the verify endpoint still
mutates the booking — status moves from pending to confirmed and the
correlation ids are stored — instead of returning an error with the state
untouched, because the signature check exists only as a commented-out block
in the source. -/
theorem claim2_counterexample :
    Zion.verifyPaymentEndpoint [c2Booking] false 7 [1] "order1" "pay1" =
      [{ c2Booking with
          status := .confirmed,
          paymentId := some "pay1",
          razorpayOrderId := some "order1",
          paymentMethod := some "Razorpay" }] ∧
    Zion.Status.confirmed ≠ c2Booking.status := by
  exact ⟨rfl, by decide⟩

/-- Claim C2 amended: in the Razorpay variant the signature check does run
before any store access — a rejected payload returns the invalid-signature
error with the whole store (bookings, cars, notifications) unchanged, and
mutation happens only when verification succeeded; the Zion-variant verify
endpoint, however, never consults the verification capability: its result is
the same whether the capability accepts or rejects, and it confirms the
listed bookings unconditionally. -/
theorem claim2_amended (s : RZ.Store) (oid pid sig : String) (bid : Nat) (now : Int)
    (bookings : List Zion.Booking) (accepts : Bool) (uid : Nat) (ids : List Nat)
    (o p : String) :
    RZ.verifyEndpoint s false oid pid sig bid now = (s, .error .invalidSignature) ∧
    Zion.verifyPaymentEndpoint bookings accepts uid ids o p =
      Zion.verifyPaymentEndpoint bookings true uid ids o p := by
  exact ⟨by simp [RZ.verifyEndpoint], rfl⟩

/-- Claim C3 sample booking: still pending, never accepted by an admin. -/
def c3Booking : RZ.Booking :=
  { id := 1, customerId := 9, carId := 1, startTime := 0, duration := 24,
    endTime := 86400000, depositStatus := .pending, homeDelivery := false,
    deliveryDistance := 0, deliveryFee := 0, vehicleName := none,
    vehicleNumber := none, startOdometer := none, endOdometer := none,
    basePrice := 2400, lateReturnFee := 0, lateHours := 0, totalPrice := 2400,
    status := .pending, adminNotes := none, paymentStatus := .pending,
    razorpayOrderId := none, razorpayPaymentId := none,
    razorpaySignature := none, paymentDate := none, actualReturnTime := none }

/-- Claim C3 sample store around `c3Booking`. -/
def c3Store : RZ.Store :=
  { bookings := [c3Booking]
    cars := [{ id := 1, pricePerHour := 100, available := true }]
    notifications := [] }

/-- Claim C3 counterexample: payment confirmation is a lifecycle action and
pending is not a state from which it is allowed (only payment_pending is),
yet the verify endpoint applied to the pending booking `c3Booking` with a
valid signature succeeds and mutates it straight to paid — it neither fails
with an invalid-transition error nor leaves the fields unchanged. -/
theorem claim3_counterexample :
    c3Booking.status = .pending ∧
    (RZ.verifyEndpoint c3Store true "o1" "p1" "s1" 1 0).2 =
      .ok { c3Booking with
             status := .paid,
             paymentStatus := .completed,
             razorpayPaymentId := some "p1",
             razorpayOrderId := some "o1",
             razorpaySignature := some "s1",
             paymentDate := some 0 } ∧
    (RZ.verifyEndpoint c3Store true "o1" "p1" "s1" 1 0).1 ≠ c3Store := by
  exact ⟨rfl, rfl, by decide⟩

/-- Claim C3 amended: the review, start and complete handlers do guard on
their source state — any other current status yields an error with the store
completely unchanged, though the error is a fixed message that reports
neither the attempted action nor the current state; but payment confirmation
(the verify endpoint) and the Zion admin status-update endpoint perform no
current-status check at all: for any found booking they succeed and mutate
it from every state. -/
theorem claim3_amended (s : RZ.Store) (bid : Nat) (b : RZ.Booking) :
    (∀ act notes, RZ.findBooking s.bookings bid = some b → b.status ≠ .pending →
      RZ.reviewEndpoint s bid act notes = (s, .error .alreadyReviewed)) ∧
    (∀ vn vnum od, RZ.findBooking s.bookings bid = some b → b.status ≠ .paid →
      RZ.startEndpoint s bid vn vnum od = (s, .error .paymentNotCompleted)) ∧
    (∀ od rt, RZ.findBooking s.bookings bid = some b → b.status ≠ .active →
      RZ.completeEndpoint s bid od rt = (s, .error .notActive)) ∧
    (∀ oid pid sig now, RZ.findBooking s.bookings bid = some b →
      ∃ b2, (RZ.verifyEndpoint s true oid pid sig bid now).2 = .ok b2 ∧
        b2.status = .paid) ∧
    (∀ (zb : List Zion.Booking) (zbk : Zion.Booking) (st : Zion.Status),
      zb.find? (fun x => x.id == bid) = some zbk →
      (Zion.adminUpdateStatusEndpoint zb bid st).2 = some { zbk with status := st }) := by
  refine ⟨?_, ?_, ?_, ?_, ?_⟩
  · intro act notes hfind hst
    unfold RZ.reviewEndpoint
    rw [hfind]
    simp [hst]
  · intro vn vnum od hfind hst
    unfold RZ.startEndpoint
    rw [hfind]
    simp [hst]
  · intro od rt hfind hst
    unfold RZ.completeEndpoint
    rw [hfind]
    simp [hst]
  · intro oid pid sig now hfind
    unfold RZ.verifyEndpoint
    rw [hfind]
    exact ⟨_, rfl, rfl⟩
  · intro zb zbk st hfind
    unfold Zion.adminUpdateStatusEndpoint
    rw [hfind]

/-- Claim C3 witness data: a completed booking on which review, start and
payment confirmation are attempted. -/
def c3WitBooking : RZ.Booking := { c3Booking with status := .completed }

/-- Claim C3 witness store. -/
def c3WitStore : RZ.Store :=
  { bookings := [c3WitBooking]
    cars := [{ id := 1, pricePerHour := 100, available := true }]
    notifications := [] }

/-- Claim C3 witness: the amended theorem instantiated on a completed
booking — review and start reject it without mutation, while payment
confirmation still succeeds on it. -/
theorem claim3_amended_witness :
    RZ.reviewEndpoint c3WitStore 1 .accept "n" = (c3WitStore, .error .alreadyReviewed) ∧
    RZ.startEndpoint c3WitStore 1 "car" "KA01" 500 = (c3WitStore, .error .paymentNotCompleted) ∧
    (∃ b2, (RZ.verifyEndpoint c3WitStore true "o" "p" "sg" 1 0).2 = .ok b2 ∧
      b2.status = .paid) := by
  refine ⟨(claim3_amended c3WitStore 1 c3WitBooking).1 .accept "n" (by rfl) (by decide),
    (claim3_amended c3WitStore 1 c3WitBooking).2.1 "car" "KA01" 500 (by rfl) (by decide),
    (claim3_amended c3WitStore 1 c3WitBooking).2.2.2.1 "o" "p" "sg" 0 (by rfl)⟩

/-- Claim C4 sample pending booking on car 1. -/
def c4Pending : RZ.Booking :=
  { id := 1, customerId := 9, carId := 1, startTime := 0, duration := 24,
    endTime := 86400000, depositStatus := .pending, homeDelivery := false,
    deliveryDistance := 0, deliveryFee := 0, vehicleName := none,
    vehicleNumber := none, startOdometer := none, endOdometer := none,
    basePrice := 2400, lateReturnFee := 0, lateHours := 0, totalPrice := 2400,
    status := .pending, adminNotes := none, paymentStatus := .pending,
    razorpayOrderId := none, razorpayPaymentId := none,
    razorpaySignature := none, paymentDate := none, actualReturnTime := none }

/-- Claim C4 sample paid booking on the same car with an overlapping
window. -/
def c4Paid : RZ.Booking :=
  { id := 2, customerId := 11, carId := 1, startTime := 43200000, duration := 24,
    endTime := 129600000, depositStatus := .pending, homeDelivery := false,
    deliveryDistance := 0, deliveryFee := 0, vehicleName := none,
    vehicleNumber := none, startOdometer := none, endOdometer := none,
    basePrice := 2400, lateReturnFee := 0, lateHours := 0, totalPrice := 2400,
    status := .paid, adminNotes := none, paymentStatus := .completed,
    razorpayOrderId := some "oX", razorpayPaymentId := some "pX",
    razorpaySignature := some "sX", paymentDate := some 1, actualReturnTime := none }

/-- Claim C4 sample store holding both bookings. -/
def c4Store : RZ.Store :=
  { bookings := [c4Pending, c4Paid]
    cars := [{ id := 1, pricePerHour := 100, available := false }]
    notifications := [] }

/-- Claim C4 counterexample: booking 2 is paid on the same car and its
half-open window overlaps booking 1 (start 0 < end 129600000 and end
86400000 > start 43200000), so a conflicting committed booking exists at the
moment of the transition — yet both committing transitions on booking 1
succeed: the admin accept moves it to payment_pending and the payment
verification moves it to paid; neither re-evaluates any availability
condition. -/
theorem claim4_counterexample :
    (c4Pending.carId = c4Paid.carId ∧ c4Pending.startTime < c4Paid.endTime ∧
      c4Pending.endTime > c4Paid.startTime ∧ c4Paid.status = .paid) ∧
    (∃ b, (RZ.reviewEndpoint c4Store 1 .accept "ok").2 = .ok b ∧
      b.status = .payment_pending) ∧
    (∃ b, (RZ.verifyEndpoint c4Store true "o" "p" "sg" 1 0).2 = .ok b ∧
      b.status = .paid) := by
  exact ⟨⟨rfl, by decide, by decide, rfl⟩, ⟨_, rfl, rfl⟩, ⟨_, rfl, rfl⟩⟩

/-- Claim C4 amended: no transition after submission re-evaluates
availability — the success of the committing transitions is fully
characterized without any availability condition: for a found booking,
acceptance succeeds exactly when the booking is pending, and payment
verification succeeds exactly when the signature matches, irrespective of
any conflicting overlapping booking present in the store at that moment (so
the transition does not fail when a conflict exists). -/
theorem claim4_amended (s : RZ.Store) (bid : Nat) (b : RZ.Booking) (notes : String)
    (sv : Bool) (oid pid sig : String) (now : Int) :
    (RZ.findBooking s.bookings bid = some b →
      ((∃ b2, (RZ.reviewEndpoint s bid .accept notes).2 = .ok b2) ↔
        b.status = .pending)) ∧
    (RZ.findBooking s.bookings bid = some b →
      ((∃ b2, (RZ.verifyEndpoint s sv oid pid sig bid now).2 = .ok b2) ↔
        sv = true)) := by
  constructor
  · intro hfind
    unfold RZ.reviewEndpoint
    rw [hfind]
    by_cases hst : b.status = .pending
    · simp [hst]
    · simp [hst]
  · intro hfind
    cases sv
    · simp [RZ.verifyEndpoint]
    · unfold RZ.verifyEndpoint
      rw [hfind]
      simp

/-- Claim C4 witness: the amended characterization instantiated on the
concrete store of two overlapping bookings. -/
theorem claim4_amended_witness :
    ∃ b2, (RZ.reviewEndpoint c4Store 1 .accept "n").2 = .ok b2 :=
  ((claim4_amended c4Store 1 c4Pending "n" true "o" "p" "sg" 0).1 (by rfl)).mpr
    (by decide)

/-- Claim C6 amended: in the PhonePe variant the complete transition sets
totalPrice to exactly basePrice + driverCharges + deliveryFee + lateFee,
replacing any previously stored total, so the completed booking satisfies
the stored-field identity totalPrice = basePrice + driverCharges +
deliveryFee + lateReturnFee; in the Razorpay variant the complete transition
sets totalPrice to basePrice + lateFee only, so there the stored deliveryFee
is not part of the total (it was folded into basePrice at submission
instead). -/
theorem claim6_totalRecomputation (s : PP.Store) (bid : Nat) (od rt : Int)
    (s2 : RZ.Store) (bid2 : Nat) (od2 rt2 : Int) :
    (∀ b2, (PP.completeEndpoint s bid od rt).2 = .ok b2 →
      b2.status = .completed ∧
      b2.totalPrice = b2.basePrice + b2.driverCharges + b2.deliveryFee + b2.lateReturnFee) ∧
    (∀ rb, (RZ.completeEndpoint s2 bid2 od2 rt2).2 = .ok rb →
      rb.status = .completed ∧
      rb.totalPrice = rb.basePrice + rb.lateReturnFee) := by
  constructor
  · intro b2 hok
    unfold PP.completeEndpoint at hok
    rcases hfind : PP.findBooking s.bookings bid with _ | booking
    · rw [hfind] at hok
      simp at hok
    · rw [hfind] at hok
      dsimp only at hok
      by_cases hst : booking.status ≠ BStatus.active
      · rw [if_pos hst] at hok
        simp at hok
      · rw [if_neg hst] at hok
        simp only [Except.ok.injEq] at hok
        subst hok
        exact ⟨rfl, rfl⟩
  · intro rb hok
    unfold RZ.completeEndpoint at hok
    rcases hfind : RZ.findBooking s2.bookings bid2 with _ | booking
    · rw [hfind] at hok
      simp at hok
    · rw [hfind] at hok
      dsimp only at hok
      by_cases hst : booking.status ≠ BStatus.active
      · rw [if_pos hst] at hok
        simp at hok
      · rw [if_neg hst] at hok
        simp only [Except.ok.injEq] at hok
        subst hok
        exact ⟨rfl, rfl⟩

/-- Claim C6 sample Razorpay booking: active, home delivery within the
threshold, so the 500 delivery surcharge sits both inside basePrice
(2400 + 500 = 2900, as the submit handler computes it) and in the separate
deliveryFee field. -/
def c6Booking : RZ.Booking :=
  { id := 1, customerId := 9, carId := 1, startTime := 0, duration := 24,
    endTime := 86400000, depositStatus := .received, homeDelivery := true,
    deliveryDistance := 3, deliveryFee := 500, vehicleName := some "Swift",
    vehicleNumber := some "KA01", startOdometer := some 1000, endOdometer := none,
    basePrice := 2900, lateReturnFee := 0, lateHours := 0, totalPrice := 2900,
    status := .active, adminNotes := none, paymentStatus := .completed,
    razorpayOrderId := some "o", razorpayPaymentId := some "p",
    razorpaySignature := some "sg", paymentDate := some 5, actualReturnTime := none }

/-- Claim C6 sample store around `c6Booking`. -/
def c6Store : RZ.Store :=
  { bookings := [c6Booking]
    cars := [{ id := 1, pricePerHour := 100, available := false }]
    notifications := [] }

/-- Claim C6 counterexample: completing the active Razorpay booking
`c6Booking` on time stores totalPrice 2900 = basePrice + lateFee, which
differs from the sum of its stored basePrice, deliveryFee and lateReturnFee
fields (2900 + 500 + 0 = 3400, with no driver-charge field existing in this
variant), so the claimed stored-field identity fails on this booking. -/
theorem claim6_counterexample :
    ∃ b, (RZ.completeEndpoint c6Store 1 1050 86400000).2 = .ok b ∧
      b.lateReturnFee = 0 ∧ b.deliveryFee = 500 ∧ b.basePrice = 2900 ∧
      b.totalPrice = 2900 ∧
      b.totalPrice ≠ b.basePrice + b.deliveryFee + b.lateReturnFee := by
  exact ⟨_, rfl, by decide, by decide, by decide, by decide, by decide⟩

/-- Claim C6 sample PhonePe booking: active, with driver charges 1400 and
delivery fee 500 stored separately from basePrice 2000. -/
def c6PPBooking : PP.Booking :=
  { id := 1, customerId := 4, carId := 1, startTime := 0, duration := 36,
    endTime := 129600000, depositStatus := .received, withDriver := true,
    driverCharges := 1400, homeDelivery := true, deliveryDistance := 3,
    deliveryFee := 500, vehicleName := some "Swift", vehicleNumber := some "KA01",
    startOdometer := some 1000, endOdometer := none, basePrice := 2000,
    lateReturnFee := 0, lateHours := 0, totalPrice := 3900, status := .active,
    adminNotes := none, paymentStatus := .completed,
    merchantOrderId := some "mo1", phonePeOrderId := some "po1",
    phonePeTransactionId := some "t1", paymentDate := some 5,
    actualReturnTime := none }

/-- Claim C6 sample PhonePe store around `c6PPBooking`. -/
def c6PPStore : PP.Store :=
  { bookings := [c6PPBooking]
    cars := []
    notifications := [] }

/-- Claim C6 witness: the amended theorem instantiated on the concrete
PhonePe booking (where the stored-field identity holds) and on the concrete
Razorpay booking. -/
theorem claim6_totalRecomputation_witness :
    (∃ b2, (PP.completeEndpoint c6PPStore 1 1040 129600000).2 = .ok b2 ∧
      b2.totalPrice = b2.basePrice + b2.driverCharges + b2.deliveryFee + b2.lateReturnFee) ∧
    (∃ rb, (RZ.completeEndpoint c6Store 1 1050 86400000).2 = .ok rb ∧
      rb.totalPrice = rb.basePrice + rb.lateReturnFee) := by
  constructor
  · exact ⟨_, rfl,
      ((claim6_totalRecomputation c6PPStore 1 1040 129600000 c6Store 1 1050 86400000).1
        _ rfl).2⟩
  · exact ⟨_, rfl,
      ((claim6_totalRecomputation c6PPStore 1 1040 129600000 c6Store 1 1050 86400000).2
        _ rfl).2⟩

/-- Claim C1 sample booking awaiting payment in the Razorpay variant. -/
def c1Booking : RZ.Booking :=
  { id := 1, customerId := 9, carId := 1, startTime := 0, duration := 24,
    endTime := 86400000, depositStatus := .pending, homeDelivery := false,
    deliveryDistance := 0, deliveryFee := 0, vehicleName := none,
    vehicleNumber := none, startOdometer := none, endOdometer := none,
    basePrice := 2400, lateReturnFee := 0, lateHours := 0, totalPrice := 2400,
    status := .payment_pending, adminNotes := some "ok", paymentStatus := .pending,
    razorpayOrderId := some "o", razorpayPaymentId := none,
    razorpaySignature := none, paymentDate := none, actualReturnTime := none }

/-- Claim C1 sample store around `c1Booking`. -/
def c1Store : RZ.Store :=
  { bookings := [c1Booking]
    cars := [{ id := 1, pricePerHour := 100, available := true }]
    notifications := [] }

/-- Claim C1 store after the first verification call. -/
def c1Once : RZ.Store := (RZ.verifyEndpoint c1Store true "o" "p" "sg" 1 0).1

/-- Claim C1 store after re-delivering the same verification call. -/
def c1Twice : RZ.Store := (RZ.verifyEndpoint c1Once true "o" "p" "sg" 1 0).1

/-- Claim C1 counterexample: re-invoking the Razorpay payment-verification
operation with the very same transaction correlation ids is not a no-op —
the repeated call succeeds again and emits a second, duplicate payment
notification (notification count goes 1 then 2), so the store after the
second call differs from the store after the first. -/
theorem claim1_counterexample :
    c1Booking.status = .payment_pending ∧
    (∃ b, (RZ.verifyEndpoint c1Once true "o" "p" "sg" 1 0).2 = .ok b) ∧
    c1Once.notifications.length = 1 ∧
    c1Twice.notifications.length = 2 ∧
    c1Twice ≠ c1Once := by
  exact ⟨rfl, ⟨_, rfl⟩, by decide, by decide, by decide⟩

/-- Claim C1 amended: only the PhonePe polled-status confirmation is
idempotent — a COMPLETED gateway report on a payment_pending booking applies
the transition once (booking saved as paid, car flag set false, exactly one
notification appended), and a further COMPLETED report on the now-paid
booking is a no-op success returning the store unchanged; the Razorpay
verify endpoint and the PhonePe webhook have no such guard: every delivery,
including a repeat with the same correlation ids, appends one more (thus
duplicate) notification and re-applies the mutation, the car flag merely
being re-set to the same value false. -/
theorem claim1_idempotence (s : PP.Store) (mo gwOrderId : String)
    (txnId : Option String) (now : Int) (b : PP.Booking) :
    (PP.findByMerchantOrder s.bookings mo = some b → b.status = .payment_pending →
      PP.paymentStatusEndpoint s mo .completedState gwOrderId txnId now =
        ({ s with
            bookings := PP.saveBooking s.bookings
              { b with
                 status := .paid
                 paymentStatus := .completed
                 phonePeOrderId := some gwOrderId
                 phonePeTransactionId :=
                   match txnId with
                   | some t => some t
                   | none => b.phonePeTransactionId
                 paymentDate := some now }
            cars := PP.setCarAvailable s.cars b.carId false
            notifications := s.notifications ++
              [{ userId := b.customerId, bookingId := some b.id,
                 message := "payment-success", ntype := .payment }] },
         .ok .completedState)) ∧
    (PP.findByMerchantOrder s.bookings mo = some b → b.status = .paid →
      PP.paymentStatusEndpoint s mo .completedState gwOrderId txnId now =
        (s, .ok .completedState)) ∧
    (PP.findByMerchantOrder s.bookings mo = some b →
      (PP.webhookCompletedEndpoint s mo gwOrderId txnId now).notifications.length =
        s.notifications.length + 1) ∧
    (∀ (rs : RZ.Store) (bid : Nat) (rb : RZ.Booking) (oid pid sig : String) (rnow : Int),
      RZ.findBooking rs.bookings bid = some rb →
      (RZ.verifyEndpoint rs true oid pid sig bid rnow).1.notifications.length =
        rs.notifications.length + 1) := by
  refine ⟨?_, ?_, ?_, ?_⟩
  · intro hfind hst
    unfold PP.paymentStatusEndpoint
    rw [hfind]
    dsimp only
    rw [if_pos ⟨rfl, hst⟩]
  · intro hfind hst
    unfold PP.paymentStatusEndpoint
    rw [hfind]
    dsimp only
    rw [if_neg (by simp [hst]), if_neg (by simp)]
  · intro hfind
    unfold PP.webhookCompletedEndpoint
    rw [hfind]
    simp
  · intro rs bid rb oid pid sig rnow hfind
    unfold RZ.verifyEndpoint
    rw [hfind]
    simp

/-- Claim C1 sample PhonePe booking awaiting payment, correlated to a stored
merchant order id. -/
def c1PPPending : PP.Booking :=
  { id := 1, customerId := 4, carId := 1, startTime := 0, duration := 24,
    endTime := 86400000, depositStatus := .pending, withDriver := false,
    driverCharges := 0, homeDelivery := false, deliveryDistance := 0,
    deliveryFee := 0, vehicleName := none, vehicleNumber := none,
    startOdometer := none, endOdometer := none, basePrice := 1500,
    lateReturnFee := 0, lateHours := 0, totalPrice := 1500,
    status := .payment_pending, adminNotes := some "ok", paymentStatus := .pending,
    merchantOrderId := some "mo1", phonePeOrderId := some "po1",
    phonePeTransactionId := none, paymentDate := none, actualReturnTime := none }

/-- Claim C1 sample PhonePe store with the pending-payment booking. -/
def c1PPStore : PP.Store :=
  { bookings := [c1PPPending]
    cars := [{ id := 1
               pricing := { price12hr := 900, price24hr := 1500, price36hr := 2000,
                            price48hr := 2600, price60hr := 3100, price72hr := 3500 }
               securityDeposit := 25000
               driverAvailable := false
               driverChargesPerDay := 0
               available := true }]
    notifications := [] }

/-- Claim C1 sample PhonePe store whose booking is already paid. -/
def c1PPStorePaid : PP.Store :=
  { c1PPStore with
     bookings := [{ c1PPPending with
                     status := .paid
                     paymentStatus := .completed
                     phonePeTransactionId := some "t1"
                     paymentDate := some 50 }] }

/-- Claim C1 witness: the amended theorem instantiated concretely — a first
COMPLETED report on the pending booking appends exactly one notification,
and a repeated COMPLETED report on the already-paid booking returns the
store unchanged. -/
theorem claim1_idempotence_witness :
    (PP.paymentStatusEndpoint c1PPStore "mo1" .completedState "po1" (some "t1") 50).1.notifications.length = 1 ∧
    PP.paymentStatusEndpoint c1PPStorePaid "mo1" .completedState "po1" (some "t1") 60 =
      (c1PPStorePaid, .ok .completedState) := by
  constructor
  · rw [(claim1_idempotence c1PPStore "mo1" "po1" (some "t1") 50 c1PPPending).1
      (by rfl) (by decide)]
    decide
  · exact (claim1_idempotence c1PPStorePaid "mo1" "po1" (some "t1") 60
      { c1PPPending with
         status := .paid
         paymentStatus := .completed
         phonePeTransactionId := some "t1"
         paymentDate := some 50 }).2.1 (by rfl) (by decide)
